import Mathlib

/-!
Shallow embedding of the stm32f3discovery HAL (src/serial.rs, src/spi.rs,
src/timer.rs).  Machine integers are modelled as `Nat`; checked Rust
arithmetic (overflowing subtraction/addition, `cast::u16(..).unwrap()`) is
modelled by `Option`-valued operations where a panic is possible, with
`none` standing for a panic.  Registers are modelled as structures of their
fields; a svd2rust `write` resets unnamed fields to 0 and a `modify`
preserves them, and the definitions below apply those semantics field by
field.
-/

/-- Non-blocking result (`nb::Result`): success, `WouldBlock`, or a typed
error (`nb::Error::Other`). -/
inductive Nb (E A : Type) where
  | ok : A → Nb E A
  | wouldBlock : Nb E A
  | err : E → Nb E A
deriving DecidableEq, Repr

/-- Errors of the serial interface (`serial::Error` in src/serial.rs). -/
inductive SerialError where
  | Framing
  | Noise
  | Overrun
deriving DecidableEq, Repr

/-- The USART status register (ISR) bits read by `Serial::read`/`write`. -/
structure SerialStatus where
  ore : Bool
  nf : Bool
  fe : Bool
  rxne : Bool
  txe : Bool
deriving DecidableEq, Repr

/-- Model of `Serial::read` (src/serial.rs lines 331-350): one ISR snapshot,
classified in source order ORE, NF, FE, RXNE; on RXNE the low 8 bits of the
9-bit RDR register are returned (the `read_volatile` of a `u8`). -/
def serialRead (sr : SerialStatus) (rdr : Nat) : Nb SerialError Nat :=
  if sr.ore then .err .Overrun
  else if sr.nf then .err .Noise
  else if sr.fe then .err .Framing
  else if sr.rxne then .ok (rdr % 256)
  else .wouldBlock

/-- Model of `Serial::write` (src/serial.rs lines 352-371): one ISR snapshot,
classified ORE, NF, FE, TXE; on TXE the byte is stored in TDR (modelled as
the second component), otherwise TDR is untouched. -/
def serialWrite (sr : SerialStatus) (byte : Nat) (tdr : Nat) :
    Nb SerialError Unit × Nat :=
  if sr.ore then (.err .Overrun, tdr)
  else if sr.nf then (.err .Noise, tdr)
  else if sr.fe then (.err .Framing, tdr)
  else if sr.txe then (.ok (), byte % 256)
  else (.wouldBlock, tdr)

/-- Errors of the SPI interface (`spi::Error` in src/spi.rs). -/
inductive SpiError where
  | Overrun
  | ModeFault
  | Crc
deriving DecidableEq, Repr

/-- The SPI status register (SR) bits read by `Spi::read`/`send`. -/
structure SpiStatus where
  ovr : Bool
  modf : Bool
  crcerr : Bool
  rxne : Bool
  txe : Bool
deriving DecidableEq, Repr

/-- Model of `Spi::read` (src/spi.rs lines 140-157): one SR snapshot, classified in
source order OVR, MODF, CRCERR, RXNE. -/
def spiRead (sr : SpiStatus) (dr : Nat) : Nb SpiError Nat :=
  if sr.ovr then .err .Overrun
  else if sr.modf then .err .ModeFault
  else if sr.crcerr then .err .Crc
  else if sr.rxne then .ok (dr % 256)
  else .wouldBlock

/-- Model of `Spi::send` (src/spi.rs lines 159-178): one SR snapshot, classified
OVR, MODF, CRCERR, TXE; on TXE the byte is stored in DR. -/
def spiSend (sr : SpiStatus) (byte : Nat) (dr : Nat) :
    Nb SpiError Unit × Nat :=
  if sr.ovr then (.err .Overrun, dr)
  else if sr.modf then (.err .ModeFault, dr)
  else if sr.crcerr then (.err .Crc, dr)
  else if sr.txe then (.ok (), byte % 256)
  else (.wouldBlock, dr)

/-- Modelled from the spec's words (priority classifier of section 4.4, the
reference side of the refinement claim C2): check an overrun flag, then a
second error flag, then a third error flag, then a data-ready flag that
yields the single 8-bit access, else WouldBlock. -/
def specClassify {E A : Type} (overrun second third ready : Bool)
    (e1 e2 e3 : E) (onReady : A) : Nb E A :=
  if overrun then .err e1
  else if second then .err e2
  else if third then .err e3
  else if ready then .ok onReady
  else .wouldBlock

theorem serialRead_spec (s : SerialStatus) (rdr : Nat) :
    serialRead s rdr =
      specClassify s.ore s.nf s.fe s.rxne SerialError.Overrun
        SerialError.Noise SerialError.Framing (rdr % 256) := rfl

theorem spiRead_spec (p : SpiStatus) (dr : Nat) :
    spiRead p dr =
      specClassify p.ovr p.modf p.crcerr p.rxne SpiError.Overrun
        SpiError.ModeFault SpiError.Crc (dr % 256) := rfl

theorem serialWrite_fst (s : SerialStatus) (b tdr : Nat) :
    (serialWrite s b tdr).1 =
      specClassify s.ore s.nf s.fe s.txe SerialError.Overrun
        SerialError.Noise SerialError.Framing () := by
  obtain ⟨o, n, f, r, t⟩ := s
  cases o <;> cases n <;> cases f <;> cases t <;> simp [serialWrite, specClassify]

theorem serialWrite_snd (s : SerialStatus) (b tdr : Nat) :
    (serialWrite s b tdr).2 =
      if (serialWrite s b tdr).1 = .ok () then b % 256 else tdr := by
  obtain ⟨o, n, f, r, t⟩ := s
  cases o <;> cases n <;> cases f <;> cases t <;> simp [serialWrite]

theorem spiSend_fst (p : SpiStatus) (b dr : Nat) :
    (spiSend p b dr).1 =
      specClassify p.ovr p.modf p.crcerr p.txe SpiError.Overrun
        SpiError.ModeFault SpiError.Crc () := by
  obtain ⟨o, m, c, r, t⟩ := p
  cases o <;> cases m <;> cases c <;> cases t <;> simp [spiSend, specClassify]

theorem spiSend_snd (p : SpiStatus) (b dr : Nat) :
    (spiSend p b dr).2 =
      if (spiSend p b dr).1 = .ok () then b % 256 else dr := by
  obtain ⟨o, m, c, r, t⟩ := p
  cases o <;> cases m <;> cases c <;> cases t <;> simp [spiSend]

/-- Errors of the DMA arbiter (`dma::Error`; the only variant used by src/serial.rs is `InUse`). -/
inductive DmaError where
  | InUse
deriving DecidableEq, Repr

/-- Outcome of `read_exact`/`write_all`: `Ok(())`, `Err(dma::Error::InUse)`,
or the panic of `u16(buffer.len()).unwrap()` on a length above 65535. -/
inductive DmaOutcome where
  | ok
  | inUse
  | lenPanic
deriving DecidableEq, Repr

/-- One DMA channel configuration register (CCRx), with the fields written
by `Serial::_init` (src/serial.rs lines 203-258). -/
structure Ccr where
  mem2mem : Bool
  pl : Nat
  msize : Nat
  psize : Nat
  minc : Bool
  circ : Bool
  pinc : Bool
  dir : Bool
  tcie : Bool
  en : Bool
deriving DecidableEq, Repr

/-- One DMA channel: configuration (CCR), transfer count (CNDTR),
peripheral address (CPAR) and memory address (CMAR). -/
structure DmaChannel where
  ccr : Ccr
  cndtr : Nat
  cpar : Nat
  cmar : Nat
deriving DecidableEq, Repr

/-- Model of `Serial::read_exact` on channel 5 (src/serial.rs lines 381-409): if the
channel's enable bit is set, return `InUse` before touching any register;
then `u16(buffer.len()).unwrap()` panics on a length above 65535, before
CNDTR is written; otherwise write CNDTR := length, CPAR := address of RDR,
CMAR := buffer base, and set CCR5.EN via `modify`. -/
def readExact (ch5 : DmaChannel) (bufLen bufAddr rdrAddr : Nat) :
    DmaOutcome × DmaChannel :=
  if ch5.ccr.en then (.inUse, ch5)
  else if 65536 ≤ bufLen then (.lenPanic, ch5)
  else (.ok, { ccr := { ch5.ccr with en := true },
               cndtr := bufLen, cpar := rdrAddr, cmar := bufAddr })

/-- Model of `Serial::write_all` on channel 4 (src/serial.rs lines 415-443): same
shape as `read_exact`, with CPAR := address of TDR. -/
def writeAll (ch4 : DmaChannel) (bufLen bufAddr tdrAddr : Nat) :
    DmaOutcome × DmaChannel :=
  if ch4.ccr.en then (.inUse, ch4)
  else if 65536 ≤ bufLen then (.lenPanic, ch4)
  else (.ok, { ccr := { ch4.ccr with en := true },
               cndtr := bufLen, cpar := tdrAddr, cmar := bufAddr })

/-- Claim C1: when the target channel's enable bit is already set,
`read_exact` (channel 5) and `write_all` (channel 4) return `InUse` and the
whole channel state (CNDTR, CPAR, CMAR, CCR) is returned unchanged — the
busy check precedes every register write. -/
theorem c1_inuse_preserves_registers (ch : DmaChannel) (len a p : Nat)
    (h : ch.ccr.en = true) :
    readExact ch len a p = (.inUse, ch) ∧
    writeAll ch len a p = (.inUse, ch) := by
  simp [readExact, writeAll, h]

/-- A concrete busy channel (enable bit set). -/
def busyCh : DmaChannel :=
  { ccr := { mem2mem := false, pl := 1, msize := 0, psize := 0,
             minc := true, circ := false, pinc := false, dir := false,
             tcie := true, en := true },
    cndtr := 7, cpar := 11, cmar := 13 }

theorem c1_inuse_preserves_registers_witness :
    busyCh.ccr.en = true ∧
    readExact busyCh 3 100 200 = (.inUse, busyCh) ∧
    writeAll busyCh 3 100 200 = (.inUse, busyCh) :=
  ⟨rfl, (c1_inuse_preserves_registers busyCh 3 100 200 rfl).1,
    (c1_inuse_preserves_registers busyCh 3 100 200 rfl).2⟩

/-- Claim C2 (amended): each of the four non-blocking operations classifies
one status snapshot by the fixed priority order of the spec, where the SPI
order is Overrun, then ModeFault, then Crc (the source checks MODF before
CRCERR); the serial order is Overrun, Noise, Framing as claimed.  The data
register is accessed (low 8 bits) exactly when the call succeeds; each call
is a total function producing exactly one outcome. -/
theorem c2_priority_classification (s : SerialStatus) (p : SpiStatus)
    (rdr b tdr d c : Nat) :
    serialRead s rdr =
      specClassify s.ore s.nf s.fe s.rxne SerialError.Overrun
        SerialError.Noise SerialError.Framing (rdr % 256) ∧
    (serialWrite s b tdr).1 =
      specClassify s.ore s.nf s.fe s.txe SerialError.Overrun
        SerialError.Noise SerialError.Framing () ∧
    ((serialWrite s b tdr).2 =
      if (serialWrite s b tdr).1 = .ok () then b % 256 else tdr) ∧
    spiRead p d =
      specClassify p.ovr p.modf p.crcerr p.rxne SpiError.Overrun
        SpiError.ModeFault SpiError.Crc (d % 256) ∧
    (spiSend p b c).1 =
      specClassify p.ovr p.modf p.crcerr p.txe SpiError.Overrun
        SpiError.ModeFault SpiError.Crc () ∧
    ((spiSend p b c).2 =
      if (spiSend p b c).1 = .ok () then b % 256 else c) :=
  ⟨serialRead_spec s rdr, serialWrite_fst s b tdr, serialWrite_snd s b tdr,
    spiRead_spec p d, spiSend_fst p b c, spiSend_snd p b c⟩

/-- A concrete SPI status with both CRCERR and MODF set (no overrun). -/
def spiStatusCE : SpiStatus :=
  { ovr := false, modf := true, crcerr := true, rxne := true, txe := true }

/-- Claim C2 counterexample: on a snapshot with both the CRC and the
mode-fault flags set, the claimed priority (CRC before mode fault, in
analogy to serial noise before framing) predicts `Crc`, but `Spi::read`
checks MODF first and returns `ModeFault`. -/
theorem c2_counterexample :
    spiRead spiStatusCE 0 = .err .ModeFault ∧
    specClassify spiStatusCE.ovr spiStatusCE.crcerr spiStatusCE.modf
        spiStatusCE.rxne SpiError.Overrun SpiError.Crc SpiError.ModeFault
        ((0 : Nat) % 256) = .err .Crc ∧
    spiRead spiStatusCE 0 ≠
      specClassify spiStatusCE.ovr spiStatusCE.crcerr spiStatusCE.modf
        spiStatusCE.rxne SpiError.Overrun SpiError.Crc SpiError.ModeFault
        ((0 : Nat) % 256) := by
  refine ⟨rfl, rfl, ?_⟩
  decide

/-- Claim C5: a buffer length above 65535 makes `read_exact`/`write_all`
fail — on an idle channel via the panic of the `u16` conversion, on a busy
channel via `InUse` — and never reach the started state; the channel state
is unchanged in every failing case, so no truncated count is ever written.
A length of at most 65535 on an idle channel is written to CNDTR exactly. -/
theorem c5_length_never_truncated (ch : DmaChannel) (len a p : Nat) :
    (65535 < len →
      (readExact ch len a p).1 ≠ .ok ∧ (readExact ch len a p).2 = ch ∧
      (writeAll ch len a p).1 ≠ .ok ∧ (writeAll ch len a p).2 = ch ∧
      (ch.ccr.en = false →
        (readExact ch len a p).1 = .lenPanic ∧
        (writeAll ch len a p).1 = .lenPanic)) ∧
    (len ≤ 65535 → ch.ccr.en = false →
      (readExact ch len a p).1 = .ok ∧
      (readExact ch len a p).2.cndtr = len ∧
      (writeAll ch len a p).1 = .ok ∧
      (writeAll ch len a p).2.cndtr = len) := by
  constructor
  · intro hlen
    have h16 : 65536 ≤ len := hlen
    by_cases hen : ch.ccr.en <;> simp [readExact, writeAll, hen, h16]
  · intro hlen hen
    have h16 : ¬ 65536 ≤ len := by omega
    simp [readExact, writeAll, hen, h16]

/-- A concrete idle channel (enable bit clear). -/
def idleCh : DmaChannel :=
  { ccr := { mem2mem := false, pl := 1, msize := 0, psize := 0,
             minc := true, circ := false, pinc := false, dir := false,
             tcie := true, en := false },
    cndtr := 0, cpar := 0, cmar := 0 }

theorem c5_length_never_truncated_witness :
    (65535 < 70000 ∧ (readExact idleCh 70000 1 2).1 = .lenPanic) ∧
    ((5 : Nat) ≤ 65535 ∧ (readExact idleCh 5 1 2).2.cndtr = 5) :=
  ⟨⟨by decide,
      (((c5_length_never_truncated idleCh 70000 1 2).1 (by decide)).2.2.2.2
        rfl).1⟩,
    ⟨by decide,
      ((c5_length_never_truncated idleCh 5 1 2).2 (by decide) rfl).2.1⟩⟩

/-- The timer registers touched by src/timer.rs (both the TIM7 and the
TIM2/TIM3/TIM4 code paths use the same register names; TIM7's ARR is a
16-bit register, TIM2's is wider, which shows up only in which writes are
checked `u16` conversions). -/
structure TimRegs where
  psc : Nat
  arr : Nat
  cnt : Nat
  cen : Bool
  opm : Bool
  uie : Bool
  uif : Bool
deriving DecidableEq, Repr

/-- The prescaler `psc = (period - 1) / (1 << 16)` from `_set_timeout`
(src/timer.rs lines 86 and 172). -/
def prescalerOf (period : Nat) : Nat := (period - 1) / 65536

/-- The reload `arr = period / (psc + 1)` from `_set_timeout`
(src/timer.rs lines 89 and 175). -/
def reloadOf (period : Nat) : Nat := period / (prescalerOf period + 1)

/-- Model of `Timer<Tim7>::_set_timeout` (src/timer.rs lines 83-91) with checked
(debug) Rust arithmetic: `period - 1` underflows at period 0;
`u16(psc).unwrap()` fails above 65535; `psc + 1` is a u16 addition that
overflows at psc = 65535; `u16(arr).unwrap()` fails above 65535.  `none`
models the panic (the PSC register write that precedes a later panic is
not retained, as no claim depends on it). -/
def setTimeoutTim7 (period : Nat) (t : TimRegs) : Option TimRegs :=
  if period = 0 then none
  else
    let psc := prescalerOf period
    if 65536 ≤ psc then none
    else if 65536 ≤ psc + 1 then none
    else
      let arr := reloadOf period
      if 65536 ≤ arr then none
      else some { t with psc := psc, arr := arr }

/-- Model of `Timer<Tim2/3/4>::_set_timeout` (src/timer.rs lines 169-177): same
divider computation, but ARR is written as a full 32-bit value
(`w.bits(arr)`), so there is no `u16` conversion of the reload value. -/
def setTimeoutTim (period : Nat) (t : TimRegs) : Option TimRegs :=
  if period = 0 then none
  else
    let psc := prescalerOf period
    if 65536 ≤ psc then none
    else if 65536 ≤ psc + 1 then none
    else some { t with psc := psc, arr := reloadOf period }

/-- Model of `Timer<Tim7>::get_timeout` (src/timer.rs lines 97-102):
`u32(psc + 1) * u32(arr)` where `psc + 1` is a u16 addition (overflow at
psc = 65535); the u32 product of two register values at most 65535 cannot
overflow. -/
def getTimeoutTim7 (t : TimRegs) : Option Nat :=
  if 65536 ≤ t.psc + 1 then none
  else some ((t.psc + 1) * t.arr)

/-- Model of `Timer<Tim2/3/4>::get_timeout` (src/timer.rs lines 186-191): same u16
addition; here ARR is a 32-bit register, so the u32 product can overflow
and the checked multiplication is modelled too. -/
def getTimeoutTim (t : TimRegs) : Option Nat :=
  if 65536 ≤ t.psc + 1 then none
  else if 4294967296 ≤ (t.psc + 1) * t.arr then none
  else some ((t.psc + 1) * t.arr)

/-- Model of `Timer<Tim7>::_init` (src/timer.rs lines 66-81): enable the clock,
`_set_timeout`, write CR1 (continuous mode, which also leaves CEN clear:
the timer starts paused), then write DIER with UIE = 1. -/
def initTim7 (period : Nat) (t : TimRegs) : Option TimRegs :=
  (setTimeoutTim7 period t).map fun t1 =>
    { t1 with cen := false, opm := false, uie := true }

/-- Model of `Timer<Tim2/3/4>::init_` (src/timer.rs lines 147-167): enable the
clock for the concrete variant, `_set_timeout`, write CR1 with OPM = 0,
then `modify` DIER setting UIE = 1. -/
def initTim (period : Nat) (t : TimRegs) : Option TimRegs :=
  (setTimeoutTim period t).map fun t1 =>
    { t1 with cen := false, opm := false, uie := true }

/-- Result of a `wait` poll. -/
inductive PollResult where
  | ok
  | wouldBlock
deriving DecidableEq, Repr

/-- Model of `Timer<Tim7>::wait` (src/timer.rs lines 123-130): if UIF is unset,
WouldBlock without touching SR; otherwise `sr.modify(uif().clear())`
writes 0 to UIF and succeeds. -/
def waitTim7 (t : TimRegs) : PollResult × TimRegs :=
  if t.uif = false then (.wouldBlock, t)
  else (.ok, { t with uif := false })

/-- Model of `Timer<Tim2/3/4>::wait` (src/timer.rs lines 212-219): if UIF is unset,
WouldBlock; otherwise `sr.modify(uif().bits(1))` — the modify writes 1,
not 0, to UIF, so the flag value stored by the write is still set. -/
def waitTim (t : TimRegs) : PollResult × TimRegs :=
  if t.uif = false then (.wouldBlock, t)
  else (.ok, { t with uif := true })

theorem prescalerOf_le (P : Nat) (h : P ≤ 4294967295) :
    prescalerOf P ≤ 65535 := by
  unfold prescalerOf
  calc (P - 1) / 65536 ≤ 4294967294 / 65536 :=
        Nat.div_le_div_right (by omega)
    _ = 65535 := by norm_num

theorem le_mul_prescaler_succ (P : Nat) :
    P ≤ 65536 * (prescalerOf P + 1) := by
  unfold prescalerOf
  have h1 := Nat.div_add_mod (P - 1) 65536
  have h2 : (P - 1) % 65536 < 65536 := Nat.mod_lt _ (by norm_num)
  omega

theorem reloadOf_le (P : Nat) : reloadOf P ≤ 65536 := by
  unfold reloadOf
  calc P / (prescalerOf P + 1) ≤
        65536 * (prescalerOf P + 1) / (prescalerOf P + 1) :=
        Nat.div_le_div_right (le_mul_prescaler_succ P)
    _ = 65536 := Nat.mul_div_cancel 65536 (Nat.succ_pos _)

theorem reload_max_iff (P : Nat) :
    reloadOf P = 65536 ↔ P = 65536 * (prescalerOf P + 1) := by
  constructor
  · intro h
    have h1 : 65536 * (prescalerOf P + 1) ≤ P :=
      (Nat.le_div_iff_mul_le (Nat.succ_pos _)).mp (le_of_eq h.symm)
    have h2 := le_mul_prescaler_succ P
    omega
  · intro h
    unfold reloadOf
    nth_rewrite 1 [h]
    exact Nat.mul_div_cancel 65536 (Nat.succ_pos _)

theorem setTimeoutTim7_inv (P : Nat) (t t' : TimRegs)
    (h : setTimeoutTim7 P t = some t') :
    P ≠ 0 ∧ prescalerOf P + 1 ≤ 65535 ∧ reloadOf P ≤ 65535 ∧
      t' = { t with psc := prescalerOf P, arr := reloadOf P } := by
  simp only [setTimeoutTim7] at h
  split_ifs at h with h0 h1 h2 h3
  exact ⟨h0, by omega, by omega, (Option.some.inj h).symm⟩

theorem setTimeoutTim_inv (P : Nat) (t t' : TimRegs)
    (h : setTimeoutTim P t = some t') :
    P ≠ 0 ∧ prescalerOf P + 1 ≤ 65535 ∧
      t' = { t with psc := prescalerOf P, arr := reloadOf P } := by
  simp only [setTimeoutTim] at h
  split_ifs at h with h0 h1 h2
  exact ⟨h0, by omega, (Option.some.inj h).symm⟩

theorem setTimeoutTim7_some (P : Nat) (t : TimRegs) (h0 : P ≠ 0)
    (h1 : prescalerOf P + 1 ≤ 65535) (h2 : reloadOf P ≤ 65535) :
    setTimeoutTim7 P t =
      some { t with psc := prescalerOf P, arr := reloadOf P } := by
  simp only [setTimeoutTim7]
  rw [if_neg h0, if_neg (by omega : ¬ 65536 ≤ prescalerOf P),
      if_neg (by omega : ¬ 65536 ≤ prescalerOf P + 1),
      if_neg (by omega : ¬ 65536 ≤ reloadOf P)]

theorem setTimeoutTim_some (P : Nat) (t : TimRegs) (h0 : P ≠ 0)
    (h1 : prescalerOf P + 1 ≤ 65535) :
    setTimeoutTim P t =
      some { t with psc := prescalerOf P, arr := reloadOf P } := by
  simp only [setTimeoutTim]
  rw [if_neg h0, if_neg (by omega : ¬ 65536 ≤ prescalerOf P),
      if_neg (by omega : ¬ 65536 ≤ prescalerOf P + 1)]

/-- All-zero timer registers. -/
def t0 : TimRegs :=
  { psc := 0, arr := 0, cnt := 0, cen := false, opm := false,
    uie := false, uif := false }

/-- Claim C3 counterexample: at period 65536 the divider yields prescaler 0
and reload 65536, which does not fit 16 bits, and Tim7's `_set_timeout`
panics on the `u16` conversion of the reload value instead of writing it. -/
theorem c3_counterexample :
    prescalerOf 65536 = 0 ∧ reloadOf 65536 = 65536 ∧
    ¬ reloadOf 65536 ≤ 65535 ∧ setTimeoutTim7 65536 t0 = none := by
  decide

/-- Claim C3 (amended): for every u32 period P ≥ 1 the divider produces
prescaler = (P-1)/65536 ≤ 65535 and reload = P/(prescaler+1) ≤ 65536; the
reload fits 16 bits unless P = 65536·(prescaler+1), where reload is exactly
65536 and Tim7's u16 conversion of it fails (`_set_timeout` panics); when
prescaler+1 ≤ 65535 and reload ≤ 65535, both `_set_timeout` variants write
exactly these two values. -/
theorem c3_divider_bounds (P : Nat) (t : TimRegs) (h1 : 1 ≤ P)
    (h2 : P ≤ 4294967295) :
    prescalerOf P ≤ 65535 ∧
    reloadOf P ≤ 65536 ∧
    (reloadOf P ≤ 65535 ∨ P = 65536 * (prescalerOf P + 1)) ∧
    (P = 65536 * (prescalerOf P + 1) → setTimeoutTim7 P t = none) ∧
    (prescalerOf P + 1 ≤ 65535 → reloadOf P ≤ 65535 →
      setTimeoutTim7 P t =
        some { t with psc := prescalerOf P, arr := reloadOf P } ∧
      setTimeoutTim P t =
        some { t with psc := prescalerOf P, arr := reloadOf P }) := by
  refine ⟨prescalerOf_le P h2, reloadOf_le P, ?_, ?_, ?_⟩
  · have hmax := reloadOf_le P
    rcases Nat.lt_or_ge (reloadOf P) 65536 with hlt | hge
    · exact Or.inl (by omega)
    · exact Or.inr ((reload_max_iff P).mp (by omega))
  · intro hP
    have hr : reloadOf P = 65536 := (reload_max_iff P).mpr hP
    simp only [setTimeoutTim7]
    rw [if_neg (by omega : ¬ P = 0)]
    by_cases hq : 65536 ≤ prescalerOf P
    · rw [if_pos hq]
    · rw [if_neg hq]
      by_cases hq1 : 65536 ≤ prescalerOf P + 1
      · rw [if_pos hq1]
      · rw [if_neg hq1, if_pos (by omega)]
  · intro hq hr
    exact ⟨setTimeoutTim7_some P t (by omega) hq hr,
           setTimeoutTim_some P t (by omega) hq⟩

theorem c3_divider_bounds_witness :
    1 ≤ 65536 ∧ 65536 ≤ 4294967295 ∧ setTimeoutTim7 65536 t0 = none :=
  ⟨by decide, by decide,
    (c3_divider_bounds 65536 t0 (by decide) (by decide)).2.2.2.1 (by decide)⟩

/-- Claim C4: for every u32 period P, whenever a family's `_set_timeout(P)`
succeeds in writing prescaler and reload, that family's `get_timeout`
returns (prescaler+1) × reload, and this product equals P exactly when
(P-1)/65536 + 1 divides P.  The two families are stated independently: at
P = 65536·(prescaler+1) only the Tim2/3/4 variant succeeds (its reload is a
32-bit write), and the round trip holds for it there too. -/
theorem c4_get_timeout_inverse (P : Nat) (t t' s s' : TimRegs)
    (hP : P ≤ 4294967295) :
    (setTimeoutTim7 P t = some t' →
      getTimeoutTim7 t' = some ((t'.psc + 1) * t'.arr) ∧
      ((t'.psc + 1) * t'.arr = P ↔ (prescalerOf P + 1) ∣ P)) ∧
    (setTimeoutTim P s = some s' →
      getTimeoutTim s' = some ((s'.psc + 1) * s'.arr) ∧
      ((s'.psc + 1) * s'.arr = P ↔ (prescalerOf P + 1) ∣ P)) := by
  have hprod : (prescalerOf P + 1) * reloadOf P ≤ P := by
    unfold reloadOf
    rw [Nat.mul_comm]
    exact Nat.div_mul_le_self P (prescalerOf P + 1)
  have hiff : (prescalerOf P + 1) * reloadOf P = P ↔
      (prescalerOf P + 1) ∣ P := by
    constructor
    · intro h
      exact ⟨reloadOf P, h.symm⟩
    · intro h
      unfold reloadOf
      exact Nat.mul_div_cancel' h
  constructor
  · intro h7
    obtain ⟨h0, hq, hr, rfl⟩ := setTimeoutTim7_inv P t t' h7
    have hn : ¬ 65536 ≤ prescalerOf P + 1 := by omega
    exact ⟨by simp [getTimeoutTim7, hn], hiff⟩
  · intro hg
    obtain ⟨h0, hq, rfl⟩ := setTimeoutTim_inv P s s' hg
    have hn : ¬ 65536 ≤ prescalerOf P + 1 := by omega
    have hlt : ¬ 4294967296 ≤ (prescalerOf P + 1) * reloadOf P := by omega
    exact ⟨by simp [getTimeoutTim, hn, hlt], hiff⟩

/-- The register state after programming a period of 1000 ticks. -/
def t1000 : TimRegs :=
  { psc := 0, arr := 1000, cnt := 0, cen := false, opm := false,
    uie := false, uif := false }

/-- The register state after the generic `_set_timeout` programs a period
of 65536 ticks: reload 65536 goes into the 32-bit ARR (Tim7's
`_set_timeout` panics at this period instead). -/
def t65536 : TimRegs :=
  { psc := 0, arr := 65536, cnt := 0, cen := false, opm := false,
    uie := false, uif := false }

theorem c4_get_timeout_inverse_witness :
    1000 ≤ 4294967295 ∧
    setTimeoutTim7 1000 t0 = some t1000 ∧
    setTimeoutTim 65536 t0 = some t65536 ∧
    getTimeoutTim7 t1000 = some 1000 ∧
    getTimeoutTim t65536 = some 65536 := by
  refine ⟨by decide, by decide, by decide, ?_, ?_⟩
  · have h := ((c4_get_timeout_inverse 1000 t0 t1000 t0 t1000
      (by decide)).1 (by decide)).1
    simpa [t1000] using h
  · have h := ((c4_get_timeout_inverse 65536 t0 t0 t0 t65536
      (by decide)).2 (by decide)).1
    simpa [t65536] using h

/-- Claim C10: a period of 0 makes the `period - 1` in the divider
computation underflow; under checked Rust arithmetic `_set_timeout` (and
`init`, which invokes it) fails for period 0 in both timer families, so the
computation is well-defined only for period ≥ 1. -/
theorem c10_zero_period_panics (t : TimRegs) :
    setTimeoutTim7 0 t = none ∧ setTimeoutTim 0 t = none ∧
    initTim7 0 t = none ∧ initTim 0 t = none := by
  refine ⟨rfl, rfl, ?_, ?_⟩ <;>
    simp [initTim7, initTim, setTimeoutTim7, setTimeoutTim]

/-- A timer whose update-event flag is set. -/
def uifSet : TimRegs :=
  { psc := 0, arr := 0, cnt := 0, cen := true, opm := false,
    uie := true, uif := true }

/-- Claim C7 (bug in the generic `wait`): Tim7's `wait` clears UIF on a
successful poll and then blocks until the next event, but the Tim2/3/4
`wait` writes 1 — not 0 — to UIF in its clear step, so the stored flag
stays set and the very next `wait` succeeds again, contradicting the
poll-once contract and Tim7's own implementation of the same trait. -/
theorem c7_generic_wait_never_clears :
    waitTim7 uifSet = (.ok, { uifSet with uif := false }) ∧
    (waitTim7 (waitTim7 uifSet).2).1 = .wouldBlock ∧
    waitTim uifSet = (.ok, uifSet) ∧
    (waitTim uifSet).2.uif = true ∧
    (waitTim (waitTim uifSet).2).1 = .ok := by
  decide

/-- The two USART instance variants bound by the `Usart` trait in
src/serial.rs (USART3 is commented out in the source). -/
inductive UsartVariant where
  | usart1
  | usart2
deriving DecidableEq, Repr

/-- The RCC clock-enable bits written by `Serial::_init`. -/
structure RccRegs where
  dmaen : Bool
  usart1en : Bool
  usart2en : Bool
  iopaen : Bool
deriving DecidableEq, Repr

/-- The GPIOA alternate-function and mode fields written by
`Serial::_init`: pins 9/10 for USART1, pins 14/15 for USART2. -/
structure GpioRegs where
  afrh9 : Nat
  afrh10 : Nat
  afrh14 : Nat
  afrh15 : Nat
  moder9 : Nat
  moder10 : Nat
  moder14 : Nat
  moder15 : Nat
deriving DecidableEq, Repr

/-- USART CR1 bits written by `_init` / toggled by `listen`/`unlisten`. -/
structure Cr1 where
  ue : Bool
  re : Bool
  te : Bool
  m : Bool
  pce : Bool
  rxneie : Bool
  tcie : Bool
  txeie : Bool
deriving DecidableEq, Repr

/-- USART CR3 bits written by `_init`. -/
structure Cr3 where
  rtse : Bool
  ctse : Bool
  dmat : Bool
  dmar : Bool
deriving DecidableEq, Repr

/-- Everything `Serial::_init` can touch: RCC, GPIOA, DMA1 channels 4/5,
and the USART's own CR1/CR2/CR3/BRR registers. -/
structure SerialWorld where
  rcc : RccRegs
  gpio : GpioRegs
  ch4 : DmaChannel
  ch5 : DmaChannel
  cr1 : Cr1
  cr2stop : Nat
  cr3 : Cr3
  brr : Nat
deriving DecidableEq, Repr

/-- How `Serial::_init` ends: normally, via the `unimplemented!()` reached
when DMA is requested on a variant other than USART1, or via the
`assert!(brr >= 16)` failure. -/
inductive InitOutcome where
  | ok
  | unimplementedPanic
  | assertPanic
deriving DecidableEq, Repr

/-- The CCR4 value written for the TX DMA transfer
(src/serial.rs lines 203-224): medium priority, 8-bit sizes, memory
increment, memory-to-peripheral, transfer-complete interrupt, disabled. -/
def ccr4Init : Ccr :=
  { mem2mem := false, pl := 1, msize := 0, psize := 0, minc := true,
    circ := false, pinc := false, dir := true, tcie := true, en := false }

/-- The CCR5 value written for the RX DMA transfer
(src/serial.rs lines 237-258): as CCR4 but peripheral-to-memory. -/
def ccr5Init : Ccr :=
  { ccr4Init with dir := false }

/-- Model of `Serial::_init` (src/serial.rs lines 131-300), in source order: DMA
clock gate if requested; the variant's own clock gate plus IOPAEN; the
variant's own pin pair to AF7/alternate mode; DMA channel configuration
(USART1 only — `unimplemented!()` otherwise); CR2 stop bits; the
`assert!(brr >= 16)`; BRR; CR3 (DMA requests on); CR1 (UE/RE/TE on,
M/PCE/RXNEIE off — a full register write, so TCIE and TXEIE are 0 too).
The returned world is the state reached when the outcome is a panic. -/
def serialInit (v : UsartVariant) (useDma : Bool) (brr : Nat)
    (w : SerialWorld) : SerialWorld × InitOutcome :=
  let w1 := if useDma then { w with rcc := { w.rcc with dmaen := true } }
            else w
  let w2 := match v with
    | .usart1 =>
        { w1 with rcc := { w1.rcc with usart1en := true, iopaen := true } }
    | .usart2 =>
        { w1 with rcc := { w1.rcc with usart2en := true, iopaen := true } }
  let w3 := match v with
    | .usart1 =>
        { w2 with gpio := { w2.gpio with afrh9 := 7, afrh10 := 7,
                                         moder9 := 2, moder10 := 2 } }
    | .usart2 =>
        { w2 with gpio := { w2.gpio with afrh14 := 7, afrh15 := 7,
                                         moder14 := 2, moder15 := 2 } }
  if useDma ∧ v ≠ .usart1 then (w3, .unimplementedPanic)
  else
    let w4 := if useDma then
        { w3 with ch4 := { w3.ch4 with ccr := ccr4Init },
                  ch5 := { w3.ch5 with ccr := ccr5Init } }
      else w3
    let w5 := { w4 with cr2stop := 0 }
    if brr < 16 then (w5, .assertPanic)
    else
      ({ w5 with
          brr := brr,
          cr3 := { rtse := false, ctse := false, dmat := true, dmar := true },
          cr1 := { ue := true, re := true, te := true, m := false,
                   pce := false, rxneie := false, tcie := false,
                   txeie := false } }, .ok)

/-- Claim C6: requesting DMA (dma1 = Some) on a variant other than USART1
hits `unimplemented!()` — a panic, neither a recoverable error nor silent
success; without DMA (dma1 = None) no variant ever reaches it, nor does
USART1 with DMA. -/
theorem c6_dma_unimplemented (brr : Nat) (w : SerialWorld) :
    (serialInit .usart2 true brr w).2 = .unimplementedPanic ∧
    (∀ v, (serialInit v false brr w).2 ≠ .unimplementedPanic) ∧
    (serialInit .usart1 true brr w).2 ≠ .unimplementedPanic := by
  refine ⟨rfl, ?_, ?_⟩
  · intro v
    cases v <;> by_cases h : brr < 16 <;> simp [serialInit, h]
  · by_cases h : brr < 16 <;> simp [serialInit, h]

/-- Claim C9: frame effect of `_init` — initializing USART1 never writes
USART2's clock-enable bit or pin fields (AFRH14/15, MODER14/15), and
initializing USART2 never writes USART1's clock-enable bit or pin fields
(AFRH9/10, MODER9/10); each enables its own clock gate.  This holds on
every path, including the ones that end in a panic. -/
theorem c9_init_frame_effect (useDma : Bool) (brr : Nat) (w : SerialWorld) :
    ((serialInit .usart1 useDma brr w).1.rcc.usart2en = w.rcc.usart2en ∧
     (serialInit .usart1 useDma brr w).1.gpio.afrh14 = w.gpio.afrh14 ∧
     (serialInit .usart1 useDma brr w).1.gpio.afrh15 = w.gpio.afrh15 ∧
     (serialInit .usart1 useDma brr w).1.gpio.moder14 = w.gpio.moder14 ∧
     (serialInit .usart1 useDma brr w).1.gpio.moder15 = w.gpio.moder15 ∧
     (serialInit .usart1 useDma brr w).1.rcc.usart1en = true) ∧
    ((serialInit .usart2 useDma brr w).1.rcc.usart1en = w.rcc.usart1en ∧
     (serialInit .usart2 useDma brr w).1.gpio.afrh9 = w.gpio.afrh9 ∧
     (serialInit .usart2 useDma brr w).1.gpio.afrh10 = w.gpio.afrh10 ∧
     (serialInit .usart2 useDma brr w).1.gpio.moder9 = w.gpio.moder9 ∧
     (serialInit .usart2 useDma brr w).1.gpio.moder10 = w.gpio.moder10 ∧
     (serialInit .usart2 useDma brr w).1.rcc.usart2en = true) := by
  cases useDma <;> by_cases h : brr < 16 <;> simp [serialInit, h]

/-- The register state `initTim7`/`initTim` produce from `t0` for a period
of 1000 ticks: divider programmed, timer paused, update interrupt enabled. -/
def t1000i : TimRegs :=
  { psc := 0, arr := 1000, cnt := 0, cen := false, opm := false,
    uie := true, uif := false }

/-- Claim C8 counterexample: timer `init` itself enables the update-event
interrupt — after `Timer<Tim7>::init` with a period of 1000 ticks the
DIER.UIE bit is 1, not 0 as claimed (the source comment even reads
"Enable update event interrupt"). -/
theorem c8_counterexample :
    initTim7 1000 t0 = some t1000i ∧ t1000i.uie = true ∧
    ¬ t1000i.uie = false := by
  decide

/-- Claim C8 (amended): after serial `_init` completes, none of CR1's
interrupt-enable bits (RXNEIE, TCIE, TXEIE) is set — only `listen` sets
them; timer `init`, however, always leaves DIER.UIE set whenever it
completes, for each family independently (Tim7 and Tim2/3/4, including the
periods where only the generic family's init completes): enabling the
update interrupt is part of timer `init` itself, not deferred to a
`listen`-like call. -/
theorem c8_init_interrupt_enables (v : UsartVariant) (useDma : Bool)
    (brr : Nat) (w : SerialWorld) (P : Nat) (t g t' g' : TimRegs)
    (hs : (serialInit v useDma brr w).2 = .ok) :
    (serialInit v useDma brr w).1.cr1.rxneie = false ∧
    (serialInit v useDma brr w).1.cr1.tcie = false ∧
    (serialInit v useDma brr w).1.cr1.txeie = false ∧
    (initTim7 P t = some t' → t'.uie = true) ∧
    (initTim P g = some g' → g'.uie = true) := by
  refine ⟨?_, ?_, ?_, ?_, ?_⟩
  · cases v <;> cases useDma <;> by_cases h : brr < 16 <;>
      simp [serialInit, h] at hs ⊢
  · cases v <;> cases useDma <;> by_cases h : brr < 16 <;>
      simp [serialInit, h] at hs ⊢
  · cases v <;> cases useDma <;> by_cases h : brr < 16 <;>
      simp [serialInit, h] at hs ⊢
  · intro h7
    obtain ⟨t1, -, ht⟩ := Option.map_eq_some'.mp h7
    rw [← ht]
  · intro hg
    obtain ⟨g1, -, hgg⟩ := Option.map_eq_some'.mp hg
    rw [← hgg]

/-- An all-zero serial world. -/
def w0 : SerialWorld :=
  { rcc := { dmaen := false, usart1en := false, usart2en := false,
             iopaen := false },
    gpio := { afrh9 := 0, afrh10 := 0, afrh14 := 0, afrh15 := 0,
              moder9 := 0, moder10 := 0, moder14 := 0, moder15 := 0 },
    ch4 := idleCh, ch5 := idleCh,
    cr1 := { ue := false, re := false, te := false, m := false,
             pce := false, rxneie := false, tcie := false, txeie := false },
    cr2stop := 0,
    cr3 := { rtse := false, ctse := false, dmat := false, dmar := false },
    brr := 0 }

/-- The register state `initTim` produces from `t0` for a period of 65536
ticks (a period Tim7's init cannot program): reload 65536 in the 32-bit
ARR, timer paused, update interrupt enabled. -/
def t65536i : TimRegs :=
  { psc := 0, arr := 65536, cnt := 0, cen := false, opm := false,
    uie := true, uif := false }

theorem c8_init_interrupt_enables_witness :
    (serialInit .usart1 false 100 w0).2 = .ok ∧
    initTim7 1000 t0 = some t1000i ∧
    initTim 65536 t0 = some t65536i ∧
    (serialInit .usart1 false 100 w0).1.cr1.rxneie = false ∧
    t1000i.uie = true ∧ t65536i.uie = true :=
  ⟨by decide, by decide, by decide,
    (c8_init_interrupt_enables .usart1 false 100 w0 1000 t0 t0 t1000i
      t1000i (by decide)).1,
    (c8_init_interrupt_enables .usart1 false 100 w0 1000 t0 t0 t1000i
      t1000i (by decide)).2.2.2.1 (by decide),
    (c8_init_interrupt_enables .usart1 false 100 w0 65536 t0 t0 t1000i
      t65536i (by decide)).2.2.2.2 (by decide)⟩
